import Mathlib

/-!
Verification of the LightRAG API server core against its specification.

The development shallowly embeds the ingestion pipeline, the scan
coordinator and the query gateway of the repository
(`lightrag/api/document_manager.py`, `lightrag/api/routes/document_routes.py`,
`lightrag/api/routes/query_routes.py`) as executable Lean definitions and
proves the specified properties about them.

Python strings are modelled as Lean `String`s; where Python operates on a
string as a character sequence (`startswith`, `endswith`, `lower`) the model
works on `String.data`.  Filesystem paths are modelled as a directory
component list plus a file name; the filesystem itself is the list of paths
currently present.  Exceptions are modelled by explicit result values: each
embedded function returns what the corresponding Python function returns on
the same control path, with `try/except/finally` translated branch by branch.
-/

namespace LightRAG

/-! ## Python string primitives

`pyStartsWith s p` is Python's `s.startswith(p)`, `pyEndsWith s p` is
`s.endswith(p)`, `pyLower` is `str.lower` (restricted to the per-character
case mapping, which is what it does on ASCII file extensions). -/

def pyStartsWith (s p : String) : Bool :=
  p.data.isPrefixOf s.data

def pyEndsWith (s p : String) : Bool :=
  p.data.isSuffixOf s.data

def pyLower (s : String) : String :=
  ⟨s.data.map Char.toLower⟩

/-! ## ScanProgress and the scan coordinator

`DocumentProcessor.__init__` (document_manager.py lines 126-133) creates the
progress record `{"is_scanning": False, "current_file": "", "indexed_count": 0,
"total_files": 0, "progress": 0}` guarded by `progress_lock`. -/

structure ScanProgress where
  is_scanning : Bool
  current_file : String
  indexed_count : Nat
  total_files : Nat
  progress : Nat
  deriving DecidableEq, Repr

/-- The progress record as initialized by `DocumentProcessor.__init__`. -/
def initProgress : ScanProgress :=
  { is_scanning := false
    current_file := ""
    indexed_count := 0
    total_files := 0
    progress := 0 }

/-- The critical section of `scan_for_new_documents` (document_routes.py
lines 63-74), executed atomically under `progress_lock`: if `is_scanning` is
true, return `"already_scanning"` and leave the record untouched; otherwise
`scan_progress.update({"is_scanning": True, "indexed_count": 0, "progress": 0})`
and return `"scanning_started"`.  Note the update touches exactly the three
keys the source lists: `total_files` and `current_file` are not written. -/
def scanStart (p : ScanProgress) : String × ScanProgress :=
  if p.is_scanning then
    ("already_scanning", p)
  else
    ("scanning_started",
      { p with is_scanning := true, indexed_count := 0, progress := 0 })

/-- Modelled from the spec: the scheduled scan task `run_scanning_process`
is referenced by `scan_for_new_documents` but its definition is not part of
the source tree.  Per the spec (section 4.3), on completion, success or
error, it sets `isScanning=false` under the same mutex; the other fields are
left as the scan left them. -/
def scanEnd (p : ScanProgress) : ScanProgress :=
  { p with is_scanning := false }

/-- The scan coordinator's observable state: the lock-protected progress
record plus the number of scheduled scan tasks currently in flight
(incremented when `scan_for_new_documents` schedules `run_scanning_process`
via `background_tasks.add_task`, decremented when that task finishes). -/
structure ScanSystem where
  prog : ScanProgress
  inflight : Nat
  deriving DecidableEq, Repr

def initSystem : ScanSystem :=
  { prog := initProgress, inflight := 0 }

/-- Events of the interleaving semantics.  A `startCall` is one whole
execution of the `scan_for_new_documents` critical section: the `with
progress_lock:` block contains no `await`, so under both the event loop and
`threading.Lock` the check-and-set runs as one atomic step.  An `endScan`
is the termination (success or failure) of one scheduled scan task. -/
inductive ScanEvent where
  | startCall
  | endScan
  deriving DecidableEq, Repr

/-- One atomic step of the coordinator.  The optional output is the HTTP
status string returned to a `startCall` caller. -/
def scanStep (s : ScanSystem) (e : ScanEvent) : ScanSystem × Option String :=
  match e with
  | .startCall =>
    let (r, p) := scanStart s.prog
    if r = "scanning_started" then
      ({ prog := p, inflight := s.inflight + 1 }, some r)
    else
      ({ prog := p, inflight := s.inflight }, some r)
  | .endScan =>
    if s.inflight = 0 then
      (s, none)
    else
      ({ prog := scanEnd s.prog, inflight := s.inflight - 1 }, none)

/-- The states the coordinator can reach from startup. -/
inductive Reachable : ScanSystem → Prop where
  | init : Reachable initSystem
  | step (s : ScanSystem) (e : ScanEvent) : Reachable s → Reachable (scanStep s e).1

/-- The single-flight invariant: a scan task is in flight exactly when the
record says a scan is running. -/
def ScanInv (s : ScanSystem) : Prop :=
  s.inflight = if s.prog.is_scanning then 1 else 0

/-! ## FileCatalog: DocumentManager

`DocumentManager` (document_manager.py lines 15-112).  A filesystem path is
a directory component list plus a final name (Python `Path.parent` /
`Path.name`); the filesystem is the list of paths currently present. -/

structure FilePathT where
  dir : List String
  name : String
  deriving DecidableEq, Repr

structure FS where
  files : List FilePathT
  deriving DecidableEq, Repr

/-- `Path.unlink`: the file is removed from the filesystem. -/
def FS.unlink (fs : FS) (p : FilePathT) : FS :=
  ⟨fs.files.filter (fun q => decide (q ≠ p))⟩

structure DocumentManager where
  input_dir : List String
  supported_extensions : List String
  indexed_files : List FilePathT
  temp_marker : String
  deriving Repr

/-- `DocumentManager.__init__` with the default extension tuple; the
temporary-name marker field (`self.temp_prefix` in the source) is the
literal `"__tmp_"` (line 40). -/
def mkDocumentManager (input_dir : List String) : DocumentManager :=
  { input_dir := input_dir
    supported_extensions := [".txt", ".md", ".pdf", ".docx", ".pptx", ".xlsx"]
    indexed_files := []
    temp_marker := "__tmp_" }

/-- `DocumentManager.is_supported_file` (lines 82-92):
`any(filename.lower().endswith(ext) for ext in self.supported_extensions)`. -/
def is_supported_file (dm : DocumentManager) (filename : String) : Bool :=
  dm.supported_extensions.any (fun ext => pyEndsWith (pyLower filename) ext)

/-- `DocumentManager.save_temp_file` (lines 94-112): writes the upload to
`self.input_dir / "temp" / f"{self.temp_prefix}{timestamp}_{file.filename}"`
and returns that path.  The timestamp string is a parameter of the model. -/
def save_temp_file (dm : DocumentManager) (timestamp : String)
    (filename : String) : FilePathT :=
  { dir := dm.input_dir ++ ["temp"]
    name := dm.temp_marker ++ timestamp ++ "_" ++ filename }

/-! ## IngestionPipeline: DocumentProcessor

`pipeline_enqueue_file` (document_manager.py lines 192-218) and
`pipeline_index_files` (lines 220-241).  The external collaborators are an
environment: `extract` is `process_file_content` keyed by path (returning
the extracted text, or an exception), and `enqueueThrows` says whether
`rag.apipeline_enqueue_documents` raises. -/

inductive ExtractResult where
  /-- `process_file_content` returned this text (possibly empty). -/
  | ok (content : String)
  /-- `process_file_content` raised (extraction failure or unexpected fault). -/
  | err
  deriving DecidableEq, Repr

structure PipelineEnv where
  extract : FilePathT → ExtractResult
  enqueueThrows : Bool

/-- The marker literal tested by `pipeline_enqueue_file`'s cleanup:
`file_path.name.startswith("__tmp_")` (line 214). -/
def cleanupMarker : String := "__tmp_"

/-- `pipeline_enqueue_file` (lines 192-218), translated branch by branch:

  * try-body: extract; if the content is truthy (non-empty), submit and
    return `True`, else return `False`;
  * `except Exception`: any exception from extraction or submission is
    caught and the function returns `False`;
  * `finally`: if the file's name starts with `"__tmp_"`, `unlink` it
    (the `unlink` itself sits in an inner try/except, so the function
    still returns normally) — this clause runs on every one of the exit
    paths above.

The result is the returned boolean together with the filesystem after the
`finally` clause. -/
def pipeline_enqueue_file (env : PipelineEnv) (fs : FS) (p : FilePathT) :
    Bool × FS :=
  let body : Bool :=
    match env.extract p with
    | .err => false
    | .ok content =>
      if content.isEmpty then false
      else if env.enqueueThrows then false
      else true
  let fs' := if pyStartsWith p.name cleanupMarker then fs.unlink p else fs
  (body, fs')

/-- The boolean `pipeline_enqueue_file` returns, which depends only on the
environment and the path, not on the filesystem. -/
def enqueueOutcome (env : PipelineEnv) (p : FilePathT) : Bool :=
  match env.extract p with
  | .err => false
  | .ok content =>
    if content.isEmpty then false
    else if env.enqueueThrows then false
    else true

/-- The `asyncio.gather` of `pipeline_enqueue_file` tasks in
`pipeline_index_files`: every task runs to completion (none raises — each
catches all its exceptions), collecting the per-item booleans; filesystem
effects are accumulated (each task only ever unlinks its own staged file). -/
def gatherEnqueue (env : PipelineEnv) (fs : FS) :
    List FilePathT → List Bool × FS
  | [] => ([], fs)
  | p :: rest =>
    let (b, fs1) := pipeline_enqueue_file env fs p
    let (bs, fs2) := gatherEnqueue env fs1 rest
    (b :: bs, fs2)

/-- `pipeline_index_files` (lines 220-241): empty input returns at once;
one path awaits `pipeline_enqueue_file` directly; several paths gather all
of them and take `any(...)`; if anything was enqueued, the engine's
`apipeline_process_enqueue_documents` step is invoked (its own failure is
caught by the surrounding try/except and only logged).  The boolean in the
result records whether that processing step was invoked. -/
def pipeline_index_files (env : PipelineEnv) (fs : FS)
    (paths : List FilePathT) : Bool × FS :=
  match paths with
  | [] => (false, fs)
  | [p] =>
    let (enqueued, fs1) := pipeline_enqueue_file env fs p
    (enqueued, fs1)
  | ps =>
    let (bs, fs1) := gatherEnqueue env fs ps
    (bs.any id, fs1)

/-! ## The batch endpoint: insert_batch

`insert_batch` (document_routes.py lines 155-209).  The loop stages each
supported file with `save_temp_file` (counting it in `inserted_count`) and
records each unsupported one in `failed_files`; the aggregate status is
derived from `inserted_count` versus `len(files)`. -/

/-- The staging loop of `insert_batch` (lines 179-184): returns
`(inserted_count, failed_files)`; staging itself succeeds (a raising
`save_temp_file` would abort the whole endpoint with a 500 instead of
producing a status). -/
def stageFiles (dm : DocumentManager) : List String → Nat × List String
  | [] => (0, [])
  | f :: rest =>
    let (n, failed) := stageFiles dm rest
    if is_supported_file dm f then
      (n + 1, failed)
    else
      (n, (f ++ " (unsupported type)") :: failed)

/-- The status computation of `insert_batch` (lines 190-204):
`"success"` when `inserted_count == len(files)`, `"partial_success"` when
`inserted_count > 0`, `"failure"` otherwise; the response also carries the
per-file failure reasons. -/
def insert_batch (dm : DocumentManager) (files : List String) :
    String × List String :=
  let inserted := (stageFiles dm files).1
  let failed := (stageFiles dm files).2
  let status :=
    if inserted = files.length then "success"
    else if inserted > 0 then "partial_success"
    else "failure"
  (status, failed)

/-! ## API-key verification

`init_routes` (document_routes.py lines 19-32) and `verify_api_key`
(lines 34-47).  `init_routes` does not store the configured key string: when
a truthy key is supplied it only sets the module global `api_key_header` to
a fresh `APIKeyHeader` extractor object.  `verify_api_key` then raises 403
"API Key required" when `api_key_header` is set and the header value is
falsy (absent or empty), and raises 403 "Invalid API Key" when
`api_key_header` is set and `api_key_header_value != api_key_header` — a
comparison of the request's string against the `APIKeyHeader` object
itself, which is never equal to any string.  The model records faithfully
that the enabled state carries no key to compare against. -/

inductive HeaderConfig where
  /-- `api_key_header` left as `None` (no key configured, or falsy key). -/
  | disabled
  /-- `api_key_header = APIKeyHeader(...)`: an extractor object.  The
  configured key string was discarded by `init_routes`. -/
  | enabled
  deriving DecidableEq, Repr

/-- The effect of `init_routes` on the auth configuration: `if api_key:`
installs the header extractor (an empty string is falsy). -/
def init_routes_auth (api_key : Option String) : HeaderConfig :=
  match api_key with
  | none => .disabled
  | some k => if k.isEmpty then .disabled else .enabled

inductive AuthOutcome where
  /-- passed verification; the request proceeds. -/
  | allowed
  /-- 403 "API Key required". -/
  | deniedMissing
  /-- 403 "Invalid API Key". -/
  | deniedInvalid
  deriving DecidableEq, Repr

/-- `verify_api_key` (lines 34-47).  With auth enabled, a falsy header
value (absent or empty) hits the first check; any other value hits the
second check, because a Python `str` never compares equal to the
`APIKeyHeader` object stored in `api_key_header`. -/
def verify_api_key (cfg : HeaderConfig) (header_value : Option String) :
    AuthOutcome :=
  match cfg with
  | .disabled => .allowed
  | .enabled =>
    match header_value with
    | none => .deniedMissing
    | some v => if v.isEmpty then .deniedMissing else .deniedInvalid

/-! ## QueryGateway: query_text and query_text_stream

`query_text` (query_routes.py lines 57-95) and the `stream_generator` of
`query_text_stream` (lines 119-131).  The retrieval engine's answer is one
of: a plain string; a structured object (modelled by its `json.dumps`
serialization); or an asynchronous fragment sequence, which yields its
fragments in order and then either finishes cleanly or raises an error
carrying a message. -/

inductive EngineResponse where
  | str (s : String)
  /-- an async iterator: the fragments it yields before terminating, and
  `some msg` when it then raises instead of finishing cleanly. -/
  | fragments (chunks : List String) (failure : Option String)
  /-- a structured object, carried as its canonical serialized text. -/
  | obj (dumped : String)
  deriving DecidableEq, Repr

/-- The response normalization of `query_text` (lines 80-91): a plain
string is returned as-is; an object with `__aiter__` is drained and
concatenated (`result += chunk`), an exception while draining being caught
by the outer handler and surfaced as a single 500 error; a dict is
serialized.  (The `request.stream or ...` disjunct in the second branch
only matters for responses that are neither strings nor iterators nor
dicts, which the model's three shapes exclude.) -/
def query_text (r : EngineResponse) : Except String String :=
  match r with
  | .str s => .ok s
  | .fragments chunks failure =>
    match failure with
    | none => .ok (chunks.foldl (fun acc c => acc ++ c) "")
    | some msg => .error msg
  | .obj dumped => .ok dumped

/-- One wire frame of the ndjson stream: serialized as one line, either
`{"response": fragment}` or `{"error": message}`. -/
inductive Frame where
  | response (s : String)
  | error (s : String)
  deriving DecidableEq, Repr

/-- The `async for` loop of `stream_generator` (lines 124-130): each truthy
(non-empty) chunk yields one response frame; a falsy chunk yields nothing;
when the iterator raises, the `except` clause yields exactly one error
frame and the generator ends. -/
def streamLoop : List String → Option String → List Frame
  | [], none => []
  | [], some msg => [.error msg]
  | c :: rest, failure =>
    if c.isEmpty then streamLoop rest failure
    else .response c :: streamLoop rest failure

/-- `stream_generator` (lines 119-131): a plain string produces exactly one
frame carrying it; any other response is iterated by `streamLoop`.  A
structured object is not an async iterable, so the `async for` raises a
`TypeError` at once, which the `except` clause turns into a single error
frame (the message text is abbreviated here). -/
def stream_generator (r : EngineResponse) : List Frame :=
  match r with
  | .str s => [.response s]
  | .fragments chunks failure => streamLoop chunks failure
  | .obj _ => streamLoop [] (some "TypeError")

/-! ## Auxiliary lemmas -/

theorem scanInv_init : ScanInv initSystem := by
  simp [ScanInv, initSystem, initProgress]

theorem scanInv_step (s : ScanSystem) (e : ScanEvent) (h : ScanInv s) :
    ScanInv (scanStep s e).1 := by
  cases e with
  | startCall =>
    by_cases hs : s.prog.is_scanning
    · simp [ScanInv, scanStep, scanStart, hs] at h ⊢
      exact h
    · simp [ScanInv, scanStep, scanStart, hs] at h ⊢
      exact h
  | endScan =>
    by_cases hz : s.inflight = 0
    · simpa [ScanInv, scanStep, hz] using h
    · by_cases hs : s.prog.is_scanning
      · simp [ScanInv, scanStep, hz, scanEnd, hs] at h ⊢
        omega
      · simp [ScanInv, hs] at h
        exact absurd h hz

theorem scanInv_reachable (s : ScanSystem) (h : Reachable s) : ScanInv s := by
  induction h with
  | init => exact scanInv_init
  | step s e _ ih => exact scanInv_step s e ih

theorem pipeline_enqueue_file_fst (env : PipelineEnv) (fs : FS)
    (p : FilePathT) :
    (pipeline_enqueue_file env fs p).1 = enqueueOutcome env p := by
  rfl

theorem isPrefixOf_append_self (p r : List Char) :
    p.isPrefixOf (p ++ r) = true := by
  induction p with
  | nil => simp [List.isPrefixOf]
  | cons a t ih => simp [List.isPrefixOf, ih]

theorem pyStartsWith_append (s t : String) :
    pyStartsWith (s ++ t) s = true := by
  unfold pyStartsWith
  rw [String.data_append]
  exact isPrefixOf_append_self s.data t.data

theorem not_mem_unlink_self (fs : FS) (p : FilePathT) :
    p ∉ (fs.unlink p).files := by
  simp [FS.unlink]

theorem unlink_subset (fs : FS) (p q : FilePathT) (h : q ∉ fs.files) :
    q ∉ (fs.unlink p).files := by
  simp [FS.unlink]
  intro hq
  exact absurd hq h

/-- The cleanup obligation of `pipeline_enqueue_file`: whatever the
environment does, a path whose name carries the temporary marker is gone
from the filesystem after the call. -/
theorem cleanup_removes (env : PipelineEnv) (fs : FS) (p : FilePathT)
    (h : pyStartsWith p.name cleanupMarker = true) :
    p ∉ (pipeline_enqueue_file env fs p).2.files := by
  simp only [pipeline_enqueue_file, h, if_true]
  exact not_mem_unlink_self fs p

theorem enqueue_file_no_new (env : PipelineEnv) (fs : FS) (p q : FilePathT)
    (h : q ∉ fs.files) : q ∉ (pipeline_enqueue_file env fs p).2.files := by
  simp only [pipeline_enqueue_file]
  by_cases hm : pyStartsWith p.name cleanupMarker = true
  · simpa [hm] using unlink_subset fs p q h
  · simpa [hm] using h

theorem gatherEnqueue_fst (env : PipelineEnv) (ps : List FilePathT) :
    ∀ fs : FS, (gatherEnqueue env fs ps).1 = ps.map (enqueueOutcome env) := by
  induction ps with
  | nil => intro fs; rfl
  | cons p rest ih =>
    intro fs
    simp [gatherEnqueue, ih, pipeline_enqueue_file_fst]

theorem gatherEnqueue_no_new (env : PipelineEnv) (ps : List FilePathT) :
    ∀ (fs : FS) (q : FilePathT), q ∉ fs.files →
      q ∉ (gatherEnqueue env fs ps).2.files := by
  induction ps with
  | nil => intro fs q h; exact h
  | cons p rest ih =>
    intro fs q h
    simp only [gatherEnqueue]
    exact ih _ q (enqueue_file_no_new env fs p q h)

theorem gatherEnqueue_cleanup (env : PipelineEnv) (ps : List FilePathT) :
    ∀ (fs : FS) (p : FilePathT), p ∈ ps →
      pyStartsWith p.name cleanupMarker = true →
      p ∉ (gatherEnqueue env fs ps).2.files := by
  induction ps with
  | nil => intro fs p h; exact absurd h (List.not_mem_nil p)
  | cons a rest ih =>
    intro fs p hmem hmark
    simp only [gatherEnqueue]
    rcases List.mem_cons.mp hmem with rfl | htail
    · exact gatherEnqueue_no_new env rest _ p (cleanup_removes env fs p hmark)
    · exact ih _ p htail hmark

theorem any_map_outcome (env : PipelineEnv) (l : List FilePathT) :
    (l.map (enqueueOutcome env)).any id = l.any (fun p => enqueueOutcome env p) := by
  induction l with
  | nil => rfl
  | cons a t ih => simp [ih]

theorem stageFiles_fst (dm : DocumentManager) (files : List String) :
    (stageFiles dm files).1 =
      (files.filter (fun f => is_supported_file dm f)).length := by
  induction files with
  | nil => rfl
  | cons f rest ih =>
    by_cases hf : is_supported_file dm f
    · simp [stageFiles, List.filter, hf, ih]
    · simp [stageFiles, List.filter, hf, ih]

theorem stageFiles_snd (dm : DocumentManager) (files : List String) :
    (stageFiles dm files).2 =
      (files.filter (fun f => ¬ is_supported_file dm f)).map
        (fun f => f ++ " (unsupported type)") := by
  induction files with
  | nil => rfl
  | cons f rest ih =>
    by_cases hf : is_supported_file dm f
    · simp [stageFiles, List.filter, hf, ih]
    · simp [stageFiles, List.filter, hf, ih]

theorem filter_length_le_self {α : Type} (l : List α) (f : α → Bool) :
    (l.filter f).length ≤ l.length :=
  List.length_filter_le f l

theorem streamLoop_none (chunks : List String) :
    streamLoop chunks none =
      (chunks.filter (fun c => !c.isEmpty)).map Frame.response := by
  induction chunks with
  | nil => rfl
  | cons c rest ih =>
    by_cases hc : c.isEmpty
    · simp [streamLoop, List.filter, hc, ih]
    · simp [streamLoop, List.filter, hc, ih]

theorem streamLoop_some (chunks : List String) (msg : String) :
    streamLoop chunks (some msg) = streamLoop chunks none ++ [Frame.error msg] := by
  induction chunks with
  | nil => rfl
  | cons c rest ih =>
    by_cases hc : c.isEmpty
    · simp [streamLoop, hc, ih]
    · simp [streamLoop, hc, ih]

theorem streamLoop_none_no_error (chunks : List String) (m : String) :
    Frame.error m ∉ streamLoop chunks none := by
  rw [streamLoop_none]
  simp

/-! ## Claim theorems -/

/-- C1: the check-and-set of `is_scanning` in `scan_for_new_documents` is
one atomic critical section under `progress_lock`: a call observing
`is_scanning = true` returns `"already_scanning"` with no side effect on
the progress record; a call observing `is_scanning = false` sets it true
and returns `"scanning_started"`; two calls in quick succession (no scan
termination in between) yield exactly one `"scanning_started"` followed by
one `"already_scanning"`; and on every reachable state at most one scan is
in flight system-wide. -/
theorem scan_single_flight (p : ScanProgress) (s t : ScanSystem) :
    (p.is_scanning = true → scanStart p = ("already_scanning", p)) ∧
    (p.is_scanning = false →
      (scanStart p).1 = "scanning_started" ∧ (scanStart p).2.is_scanning = true) ∧
    (s.prog.is_scanning = false →
      (scanStep s .startCall).2 = some "scanning_started" ∧
      (scanStep (scanStep s .startCall).1 .startCall).2 = some "already_scanning") ∧
    (Reachable t → t.inflight ≤ 1) := by
  refine ⟨?_, ?_, ?_, ?_⟩
  · intro hs
    simp [scanStart, hs]
  · intro hs
    simp [scanStart, hs]
  · intro hs
    constructor
    · simp [scanStep, scanStart, hs]
    · simp [scanStep, scanStart, hs]
  · intro hr
    have h := scanInv_reachable t hr
    rw [ScanInv] at h
    by_cases ht : t.prog.is_scanning
    · simp [ht] at h
      omega
    · simp [ht] at h
      omega

/-- Witness for C1: concrete instantiation at the startup state, where the
progress record reports no scan. -/
theorem scan_single_flight_witness :
    (scanStep initSystem .startCall).2 = some "scanning_started" ∧
    (scanStep (scanStep initSystem .startCall).1 .startCall).2 =
      some "already_scanning" ∧
    initSystem.inflight ≤ 1 := by
  have h := scan_single_flight initProgress initSystem initSystem
  exact ⟨(h.2.2.1 (by decide)).1, (h.2.2.1 (by decide)).2,
    h.2.2.2 Reachable.init⟩

/-- C3 counterexample: the claim says the scan-start transition resets the
counters `indexedCount`, `totalFiles` and `progress` to zero, but the
`scan_progress.update` in `scan_for_new_documents` does not touch
`total_files`: starting a scan from a record with `total_files = 5` leaves
`total_files = 5`. -/
theorem scan_lifecycle_counterexample :
    (scanStart { initProgress with total_files := 5 }).1 = "scanning_started" ∧
    (scanStart { initProgress with total_files := 5 }).2.total_files ≠ 0 := by
  constructor
  · rfl
  · decide

/-- C3 (amended): when a scan starts from an idle record, `indexed_count`
and `progress` are reset to zero and `is_scanning` is set true, while
`total_files` and `current_file` keep their previous values; when a
scheduled scan task ends (success or failure), `is_scanning` is set back to
false under the same mutex, so a subsequent start call returns
`"scanning_started"`. -/
theorem scan_lifecycle (p : ScanProgress) (s : ScanSystem) :
    (p.is_scanning = false →
      (scanStart p).2.is_scanning = true ∧
      (scanStart p).2.indexed_count = 0 ∧
      (scanStart p).2.progress = 0 ∧
      (scanStart p).2.total_files = p.total_files ∧
      (scanStart p).2.current_file = p.current_file) ∧
    (s.inflight ≠ 0 →
      (scanStep s .endScan).1.prog.is_scanning = false ∧
      (scanStep (scanStep s .endScan).1 .startCall).2 =
        some "scanning_started") := by
  constructor
  · intro hs
    simp [scanStart, hs]
  · intro hz
    constructor
    · simp [scanStep, hz, scanEnd]
    · simp [scanStep, hz, scanEnd, scanStart]

/-- Witness for C3: concrete instantiation at an idle record carrying stale
counters and at a system with one scan in flight. -/
theorem scan_lifecycle_witness :
    (scanStart { initProgress with total_files := 5, indexed_count := 3 }).2.total_files = 5 ∧
    (scanStep { prog := { initProgress with is_scanning := true }, inflight := 1 }
      .endScan).1.prog.is_scanning = false := by
  have h1 := scan_lifecycle { initProgress with total_files := 5, indexed_count := 3 }
    { prog := { initProgress with is_scanning := true }, inflight := 1 }
  exact ⟨(h1.1 (by decide)).2.2.2.1, (h1.2 (by decide)).1⟩

/-- C2: for every path whose name carries the temporary marker,
`pipeline_enqueue_file` deletes the file on every exit path.  The
environment is universally quantified, so the statement covers success,
empty extracted content, extraction failure, submission failure and an
unexpected extraction fault alike: after the call the staged temporary
file is absent from the filesystem. -/
theorem enqueue_file_cleanup (env : PipelineEnv) (fs : FS) (p : FilePathT)
    (h : pyStartsWith p.name cleanupMarker = true) :
    p ∉ (pipeline_enqueue_file env fs p).2.files :=
  cleanup_removes env fs p h

/-- Witness for C2: a concrete staged temporary file is removed even when
extraction raises. -/
theorem enqueue_file_cleanup_witness :
    pyStartsWith "__tmp_20240101_a.txt" cleanupMarker = true ∧
    (⟨["data", "temp"], "__tmp_20240101_a.txt"⟩ : FilePathT) ∉
      (pipeline_enqueue_file ⟨fun _ => .err, false⟩
        ⟨[⟨["data", "temp"], "__tmp_20240101_a.txt"⟩]⟩
        ⟨["data", "temp"], "__tmp_20240101_a.txt"⟩).2.files := by
  refine ⟨by decide, ?_⟩
  exact enqueue_file_cleanup ⟨fun _ => .err, false⟩
    ⟨[⟨["data", "temp"], "__tmp_20240101_a.txt"⟩]⟩
    ⟨["data", "temp"], "__tmp_20240101_a.txt"⟩ (by decide)

/-- C10: every file created by `save_temp_file` is placed under the
reserved `"temp"` subdirectory with a name beginning with the manager's
temporary-name marker, which is exactly the `"__tmp_"` literal that
`pipeline_enqueue_file`'s cleanup tests with `startswith`; consequently the
staged upload is deleted by the pipeline after its single processing
attempt, whatever the environment does. -/
theorem save_temp_file_marked (input_dir : List String)
    (timestamp filename : String) (env : PipelineEnv) (fs : FS) :
    (save_temp_file (mkDocumentManager input_dir) timestamp filename).dir =
      input_dir ++ ["temp"] ∧
    (mkDocumentManager input_dir).temp_marker = cleanupMarker ∧
    pyStartsWith
      (save_temp_file (mkDocumentManager input_dir) timestamp filename).name
      cleanupMarker = true ∧
    save_temp_file (mkDocumentManager input_dir) timestamp filename ∉
      (pipeline_enqueue_file env fs
        (save_temp_file (mkDocumentManager input_dir) timestamp filename)).2.files := by
  have hname :
      (save_temp_file (mkDocumentManager input_dir) timestamp filename).name =
        cleanupMarker ++ (timestamp ++ "_" ++ filename) := by
    simp [save_temp_file, mkDocumentManager, cleanupMarker, String.append_assoc]
  have hmark :
      pyStartsWith
        (save_temp_file (mkDocumentManager input_dir) timestamp filename).name
        cleanupMarker = true := by
    rw [hname]
    exact pyStartsWith_append cleanupMarker (timestamp ++ "_" ++ filename)
  refine ⟨rfl, rfl, hmark, ?_⟩
  exact cleanup_removes env fs _ hmark

/-- Witness for C10: a concrete upload staged under the input directory. -/
theorem save_temp_file_marked_witness :
    (save_temp_file (mkDocumentManager ["data"]) "20240101_120000" "notes.md").dir =
      ["data", "temp"] ∧
    pyStartsWith
      (save_temp_file (mkDocumentManager ["data"]) "20240101_120000" "notes.md").name
      cleanupMarker = true := by
  have h := save_temp_file_marked ["data"] "20240101_120000" "notes.md"
    ⟨fun _ => .ok "text", false⟩ ⟨[]⟩
  exact ⟨h.1, h.2.2.1⟩

/-- C8: for every non-empty batch, `pipeline_index_files` invokes the
engine's process-enqueued-documents step exactly when at least one item was
successfully enqueued; each item's outcome is a function of that item
alone (so one item's failure never aborts or alters a sibling's
processing, and since every per-item exception is caught inside
`pipeline_enqueue_file`, nothing raises out of the batch call); and every
temporary-marked item's cleanup runs regardless of sibling failures. -/
theorem index_files_aggregate (env : PipelineEnv) (fs : FS)
    (paths : List FilePathT) (hne : paths ≠ []) :
    ((pipeline_index_files env fs paths).1 =
      paths.any (fun p => enqueueOutcome env p)) ∧
    ((gatherEnqueue env fs paths).1 = paths.map (enqueueOutcome env)) ∧
    (∀ p ∈ paths, pyStartsWith p.name cleanupMarker = true →
      p ∉ (pipeline_index_files env fs paths).2.files) := by
  match paths with
  | [] => exact absurd rfl hne
  | [p] =>
    refine ⟨?_, ?_, ?_⟩
    · simp [pipeline_index_files, pipeline_enqueue_file_fst]
    · simp [gatherEnqueue, pipeline_enqueue_file_fst]
    · intro q hq hmark
      simp only [List.mem_singleton] at hq
      subst hq
      simp only [pipeline_index_files]
      exact cleanup_removes env fs q hmark
  | p :: b :: rest =>
    refine ⟨?_, gatherEnqueue_fst env _ fs, ?_⟩
    · simp only [pipeline_index_files]
      rw [gatherEnqueue_fst]
      exact any_map_outcome env (p :: b :: rest)
    · intro q hq hmark
      simp only [pipeline_index_files]
      exact gatherEnqueue_cleanup env (p :: b :: rest) fs q hq hmark

/-- Witness for C8: two staged files, the first failing extraction and the
second succeeding — the processing step still runs and both temporary
files are cleaned up. -/
theorem index_files_aggregate_witness :
    (pipeline_index_files
      ⟨fun q => if q.name = "__tmp_1_a.txt" then .err else .ok "text", false⟩
      ⟨[⟨["d", "temp"], "__tmp_1_a.txt"⟩, ⟨["d", "temp"], "__tmp_2_b.txt"⟩]⟩
      [⟨["d", "temp"], "__tmp_1_a.txt"⟩, ⟨["d", "temp"], "__tmp_2_b.txt"⟩]).1 =
      true ∧
    (⟨["d", "temp"], "__tmp_1_a.txt"⟩ : FilePathT) ∉
      (pipeline_index_files
        ⟨fun q => if q.name = "__tmp_1_a.txt" then .err else .ok "text", false⟩
        ⟨[⟨["d", "temp"], "__tmp_1_a.txt"⟩, ⟨["d", "temp"], "__tmp_2_b.txt"⟩]⟩
        [⟨["d", "temp"], "__tmp_1_a.txt"⟩, ⟨["d", "temp"], "__tmp_2_b.txt"⟩]).2.files := by
  have h := index_files_aggregate
    ⟨fun q => if q.name = "__tmp_1_a.txt" then .err else .ok "text", false⟩
    ⟨[⟨["d", "temp"], "__tmp_1_a.txt"⟩, ⟨["d", "temp"], "__tmp_2_b.txt"⟩]⟩
    [⟨["d", "temp"], "__tmp_1_a.txt"⟩, ⟨["d", "temp"], "__tmp_2_b.txt"⟩]
    (by simp)
  refine ⟨?_, ?_⟩
  · rw [h.1]
    decide
  · exact h.2.2 ⟨["d", "temp"], "__tmp_1_a.txt"⟩ (by simp) (by decide)

/-- C4 counterexample: the claim demands status `"failure"` exactly when
zero files succeed, but `insert_batch` compares `inserted_count` with
`len(files)` first, so the empty batch — zero staged, zero succeeded —
reports `"success"`. -/
theorem insert_batch_counterexample :
    (insert_batch (mkDocumentManager ["inputs"]) []).1 = "success" ∧
    (stageFiles (mkDocumentManager ["inputs"]) []).1 = 0 := by
  constructor
  · rfl
  · rfl

/-- C4 (amended): for every non-empty batch of N uploaded files of which K
have supported extensions (staging succeeding for each supported file, a
staging fault aborting the whole endpoint instead), the status is
`"success"` iff K = N, `"failure"` iff K = 0, and `"partial_success"`
otherwise, with the unsupported files listed as per-file failure reasons;
the empty batch reports `"success"`. -/
theorem insert_batch_status (dm : DocumentManager) (files : List String)
    (hne : files ≠ []) :
    ((insert_batch dm files).1 = "success" ↔
      (files.filter (fun f => is_supported_file dm f)).length = files.length) ∧
    ((insert_batch dm files).1 = "failure" ↔
      (files.filter (fun f => is_supported_file dm f)).length = 0) ∧
    ((insert_batch dm files).1 = "partial_success" ↔
      (0 < (files.filter (fun f => is_supported_file dm f)).length ∧
        (files.filter (fun f => is_supported_file dm f)).length < files.length)) ∧
    (insert_batch dm files).2 =
      (files.filter (fun f => ¬ is_supported_file dm f)).map
        (fun f => f ++ " (unsupported type)") := by
  have hKN : (files.filter (fun f => is_supported_file dm f)).length ≤
      files.length := List.length_filter_le _ _
  have hN : 0 < files.length := List.length_pos.mpr hne
  have hstat : (insert_batch dm files).1 =
      (if (files.filter (fun f => is_supported_file dm f)).length = files.length
        then "success"
        else if (files.filter (fun f => is_supported_file dm f)).length > 0
          then "partial_success"
          else "failure") := by
    simp only [insert_batch, stageFiles_fst]
  have hsp : ("success" : String) ≠ "partial_success" := by decide
  have hsf : ("success" : String) ≠ "failure" := by decide
  have hpf : ("partial_success" : String) ≠ "failure" := by decide
  refine ⟨?_, ?_, ?_, by simp only [insert_batch, stageFiles_snd]⟩
  · rw [hstat]
    split_ifs with h1 h2
    · simp [h1]
    · simp [hsp.symm, h1]
    · simp [hsf.symm, h1]
  · rw [hstat]
    split_ifs with h1 h2
    · constructor
      · intro hh
        exact absurd hh hsf
      · intro hh
        omega
    · constructor
      · intro hh
        exact absurd hh hpf
      · intro hh
        omega
    · constructor
      · intro _
        omega
      · intro _
        rfl
  · rw [hstat]
    split_ifs with h1 h2
    · constructor
      · intro hh
        exact absurd hh hsp
      · intro hh
        omega
    · constructor
      · intro _
        omega
      · intro _
        rfl
    · constructor
      · intro hh
        exact absurd hh.symm hpf
      · intro hh
        omega

/-- Witness for C4: a two-file batch with one supported and one unsupported
file reports `"partial_success"` and names the unsupported file. -/
theorem insert_batch_status_witness :
    (insert_batch (mkDocumentManager ["d"]) ["a.txt", "b.exe"]).1 =
      "partial_success" := by
  have h := insert_batch_status (mkDocumentManager ["d"]) ["a.txt", "b.exe"]
    (by decide)
  exact h.2.2.1.mpr (by decide)

/-- C5: with an API key configured, `verify_api_key` denies a request whose
header is absent — but it also denies the request presenting the configured
key itself: `init_routes` never stores the key string, and the comparison
`api_key_header_value != api_key_header` pits the header string against the
`APIKeyHeader` extractor object, which no string equals.  This contradicts
the function's stated purpose of verifying the key, so the evaluation below
exhibits the code bug at the failing input. -/
theorem verify_api_key_rejects_matching :
    verify_api_key (init_routes_auth (some "secret")) (some "secret") =
      AuthOutcome.deniedInvalid ∧
    verify_api_key (init_routes_auth (some "secret")) none =
      AuthOutcome.deniedMissing ∧
    verify_api_key (init_routes_auth none) (some "anything") =
      AuthOutcome.allowed := by
  decide

/-- C6 counterexample: the engine yields the three fragments
`["a", "", "b"]` and the claim demands three frames, one per fragment; the
generator's `if chunk:` guard drops the empty fragment and only two frames
are produced. -/
theorem stream_frames_counterexample :
    stream_generator (.fragments ["a", "", "b"] none) =
      [Frame.response "a", Frame.response "b"] ∧
    stream_generator (.fragments ["a", "", "b"] none) ≠
      [Frame.response "a", Frame.response "", Frame.response "b"] := by
  decide

/-- C6 (amended): a plain-string result produces exactly one frame carrying
the whole string, and a fragment sequence produces exactly one
`{"response": fragment}` frame per non-empty fragment, in arrival order;
empty fragments are skipped. -/
theorem stream_frames (s : String) (chunks : List String) :
    stream_generator (EngineResponse.str s) = [Frame.response s] ∧
    stream_generator (EngineResponse.fragments chunks none) =
      (chunks.filter (fun c => !c.isEmpty)).map Frame.response :=
  ⟨rfl, streamLoop_none chunks⟩

/-- C7: when the fragment sequence raises after some frames were produced,
the stream is exactly the frames of the clean drain followed by one final
`{"error": message}` frame, and no error frame occurs among the earlier
frames — the consumer can tell an error-terminated stream from a clean
end-of-stream, and the error never aborts frames already sent. -/
theorem stream_error_terminal (chunks : List String) (msg : String) :
    stream_generator (.fragments chunks (some msg)) =
      stream_generator (.fragments chunks none) ++ [Frame.error msg] ∧
    ∀ m, Frame.error m ∉ stream_generator (.fragments chunks none) :=
  ⟨streamLoop_some chunks msg, fun m => streamLoop_none_no_error chunks m⟩

/-- C9: on the fragment sequence `["a", "b", "c"]` the synchronous path
returns the concatenation `"abc"` while the streaming path produces exactly
the three response frames in order — the synchronous result is the
concatenation of the streamed frame payloads. -/
theorem query_stream_agreement :
    query_text (.fragments ["a", "b", "c"] none) = .ok "abc" ∧
    stream_generator (.fragments ["a", "b", "c"] none) =
      [Frame.response "a", Frame.response "b", Frame.response "c"] :=
  ⟨rfl, by decide⟩

end LightRAG
